import Mathlib

/-
  Verification development for the hcp-asl distortion-correction scripts.

  Shallow embedding of:
  - src/scripts/distcorr_warps.py  (transform-chain assembly in `main`,
    the generator helpers, `find_field_maps`, `create_ti_image`,
    `generate_topup_params`)
  - src/scripts/mt_estimation_pipeline.py (argument validation and the
    per-subject setup/estimation batch)

  regtricks transforms are modelled as tagged values; `rt.chain` is list
  concatenation (transforms applied left to right); external tool
  invocations are modelled by the exit code they would return and whether
  the subprocess call checks it.
-/

/-! ## Targets and transforms (distcorr_warps.main) -/

/-- The `--target` command-line option: registration target space. -/
inductive Target where
  | asl
  | structural
deriving DecidableEq

/-- Model of `rt.NonLinearRegistration.from_fnirt(warp, src, ref,
intensity_correct=..., constrain_jac=...)`.  The Jacobian constraint
bounds are stored as numerator/denominator pairs, so `(0.01, 100)` is
`((1, 100), (100, 1))`. -/
structure NonLinearRegistration where
  warp : String
  src : String
  ref : String
  intensity_correct : Bool
  constrain_jac : (ℕ × ℕ) × (ℕ × ℕ)
deriving DecidableEq

/-- A regtricks transform: per-timepoint motion correction, a single
affine registration, or a non-linear (dense warp) registration. -/
inductive Transform where
  | moco (name : String)
  | reg (name : String)
  | nonlin (n : NonLinearRegistration)
deriving DecidableEq

/-- `rt.MotionCorrection.from_mcflirt(mcdir, asl, calib)` with
`mcdir = .../MoCo/asln2m0.mat`. -/
def asl2calib_mc : Transform := .moco "asln2m0.mat"

/-- `calib2asl0 = asl2calib_mc[0].inverse()`: the calibration-to-ASL
registration extracted from the motion correction. -/
def calib2asl0 : Transform := .reg "asl2calib_mc[0].inverse"

/-- `asl_mc = rt.chain(asl2calib_mc, calib2asl0)`: motion correction
rebased to volume 0 of the ASL series. -/
def asl_mc : List Transform := [asl2calib_mc, calib2asl0]

/-- `gdc = rt.NonLinearRegistration.from_fnirt(gdc_path, asl_vol0,
asl_vol0, intensity_correct=True, constrain_jac=(0.01,100))`. -/
def gdc_reg : NonLinearRegistration :=
  ⟨"fullWarp_abs.nii.gz", "tis_stcorr_vol1.nii.gz", "tis_stcorr_vol1.nii.gz",
    true, ((1, 100), (100, 1))⟩

/-- The gradient-distortion-correction warp as a chain element. -/
def gdc : Transform := .nonlin gdc_reg

/-- `epi_dc_path = 'asl2struct_warp_init.nii.gz' if target=='asl' else
'asl2struct_warp_final.nii.gz'`. -/
def epi_dc_path (t : Target) : String :=
  if t = .asl then "asl2struct_warp_init.nii.gz" else "asl2struct_warp_final.nii.gz"

/-- `mask_name`: `asl_vol1_mask_init.nii.gz` for target `'asl'`,
`asl_vol1_mask_final.nii.gz` for target `'structural'`. -/
def mask_name (t : Target) : String :=
  if t = .asl then "asl_vol1_mask_init.nii.gz" else "asl_vol1_mask_final.nii.gz"

/-- `epi_dc = rt.NonLinearRegistration.from_fnirt(epi_dc_path, mask_name,
struct, intensity_correct=True, constrain_jac=(0.01,100))`. -/
def epi_dc_reg (t : Target) : NonLinearRegistration :=
  ⟨epi_dc_path t, mask_name t, "T1w_acpc_dc_restore.nii.gz", true,
    ((1, 100), (100, 1))⟩

/-- `struct2asl_aslreg = rt.Registration.from_flirt(struct2asl.mat,
src=struct, ref=asl)`. -/
def struct2asl_aslreg : Transform := .reg "struct2asl.mat"

/-- The EPI distortion-correction transform actually chained by the driver:
`if target == 'asl': epi_dc = rt.chain(epi_dc, struct2asl_aslreg)`. -/
def epi_dc (t : Target) : List Transform :=
  if t = .asl then [.nonlin (epi_dc_reg t), struct2asl_aslreg]
  else [.nonlin (epi_dc_reg t)]

/-- `reference = t1_asl_grid if target=='structural' else asl`. -/
def reference (t : Target) : String :=
  if t = .structural then "ASL_grid_T1w_acpc_dc_restore.nii.gz"
  else "tis_stcorr.nii.gz"

/-- `asl2struct_mc_dc = rt.chain(asl_mc, gdc, epi_dc)`. -/
def asl2struct_mc_dc (t : Target) : List Transform :=
  asl_mc ++ [gdc] ++ epi_dc t

/-- `calib2struct_dc = rt.chain(calib2asl0, gdc, epi_dc)`. -/
def calib2struct_dc (t : Target) : List Transform :=
  [calib2asl0] ++ [gdc] ++ epi_dc t

/-- `asl_mc[0]`: the first (volume-0) registration of the rebased motion
correction, used for the satrecov-estimated T1 image. -/
def asl_mc0 : Transform := .reg "asl_mc[0]"

/-- `asl2struct_dc = rt.chain(asl_mc[0], gdc, epi_dc)`. -/
def asl2struct_dc_t1 (t : Target) : List Transform :=
  [asl_mc0] ++ [gdc] ++ epi_dc t

/-- `asl2struct = rt.Registration.from_flirt(asl2struct.mat, src=asl,
ref=struct)` used to move the timing image to T1 space. -/
def asl2struct_flirt : Transform := .reg "asl2struct.mat"

/-- `rt.Registration.identity()`. -/
def identity_reg : Transform := .reg "identity"

/-- `asl2struct_initial.inverse()` used inside `generate_asl_mask`. -/
def asl2struct_initial_inv : Transform := .reg "asl2struct_initial.inverse"

/-- One resampling product of the driver: output path, the transform
chain applied, and the reference image defining the target grid. -/
structure AppliedProduct where
  outpath : String
  transform : List Transform
  ref : String
deriving DecidableEq

/-- Every product that `distcorr_warps.main` produces by applying a
transform (chain) to an image, in program order, for a given target. -/
def drivenProducts (t : Target) : List AppliedProduct :=
  (if t = .asl then
    [⟨"ASL_grid_T1w_acpc_dc_restore.nii.gz", [identity_reg], "t1_asl_grid_spc"⟩,
     ⟨"ASL_grid_T1w_acpc_dc_restore_brain_mask.nii.gz", [identity_reg], "t1_asl_grid_spc"⟩,
     ⟨"gdc_tis_vol1.nii.gz", [gdc], "tis_stcorr_vol1.nii.gz"⟩]
   else []) ++
  [⟨mask_name t, [asl2struct_initial_inv], "unreg_img"⟩,
   ⟨"tis_distcorr.nii.gz", asl2struct_mc_dc t, reference t⟩] ++
  (if t = .structural then
    [⟨"calib0_dcorr.nii.gz", calib2struct_dc t, reference t⟩]
   else []) ++
  [⟨"combined_scaling_factors.nii.gz", asl2struct_mc_dc t, reference t⟩] ++
  (if t = .structural then
    [⟨"mean_T1t_filt.nii.gz", asl2struct_dc_t1 t, reference t⟩,
     ⟨"T1w/ASL/timing_img.nii.gz", [asl2struct_flirt], reference t⟩]
   else [])

/-- Classify a chain element into the three physical correction stages:
0 = motion-correction stage (the motion correction itself or a
registration extracted from it), 1 = gradient-distortion warp,
2 = EPI-distortion warp.  Registrations unrelated to these corrections
classify as none. -/
def corrClass : Transform → Option Nat
  | .moco _ => some 0
  | .reg m =>
      if m = "asl2calib_mc[0].inverse" ∨ m = "asl_mc[0]" then some 0 else none
  | .nonlin n => if n.warp = "fullWarp_abs.nii.gz" then some 1 else some 2

/-- The correction stages appearing in a chain, in application order. -/
def chainClasses (l : List Transform) : List Nat := l.filterMap corrClass

/-- A list of stages is in physical order when it never decreases. -/
def nonDecreasing : List Nat → Bool
  | a :: b :: rest => if a ≤ b then nonDecreasing (b :: rest) else false
  | _ => true

/-! ## C1: correction order in every product chain -/

/-- C1: whichever target is configured, the corrected ASL series, the
corrected calibration image and the combined scaling-factor image are each
produced by the single composed chain that applies the motion-correction
stage first, then the gradient-distortion warp, then the EPI-distortion
warp (stage sequence [0,0,1,2] resp. [0,1,2]), and every product the
driver resamples has its correction stages in non-decreasing
(physical) order — no product uses these transforms in another order. -/
theorem correction_order_fixed :
    ∀ t : Target, ∀ p ∈ drivenProducts t,
      (p.outpath = "tis_distcorr.nii.gz" →
        p.transform = asl2struct_mc_dc t ∧
        chainClasses p.transform = [0, 0, 1, 2]) ∧
      (p.outpath = "calib0_dcorr.nii.gz" →
        p.transform = calib2struct_dc t ∧
        chainClasses p.transform = [0, 1, 2]) ∧
      (p.outpath = "combined_scaling_factors.nii.gz" →
        p.transform = asl2struct_mc_dc t ∧
        chainClasses p.transform = [0, 0, 1, 2]) ∧
      nonDecreasing (chainClasses p.transform) = true := by
  intro t
  cases t <;> decide

/-- Witness for C1 at a concrete product of a concrete run. -/
theorem correction_order_fixed_witness :
    (⟨"tis_distcorr.nii.gz", asl2struct_mc_dc Target.asl, reference Target.asl⟩ :
        AppliedProduct) ∈ drivenProducts Target.asl ∧
    chainClasses (asl2struct_mc_dc Target.asl) = [0, 0, 1, 2] ∧
    nonDecreasing (chainClasses (asl2struct_mc_dc Target.asl)) = true := by
  have h := correction_order_fixed Target.asl
    ⟨"tis_distcorr.nii.gz", asl2struct_mc_dc Target.asl, reference Target.asl⟩
    (by decide)
  exact ⟨by decide, (h.1 rfl).2, h.2.2.2⟩

/-! ## C2: intensity correction on every dense warp -/

/-- Whether a chain element was constructed with intensity (Jacobian)
correction enabled; trivially true for purely affine elements, whose
Jacobian is identically 1. -/
def intensityCorrectOn : Transform → Bool
  | .nonlin n => n.intensity_correct
  | _ => true

/-- C2: the gradient-distortion warp and the EPI-distortion warp are both
constructed with `intensity_correct=True`, and consequently every dense
displacement-field element of every chain the driver applies has
intensity correction enabled. -/
theorem dense_warps_intensity_corrected :
    ∀ t : Target,
      gdc_reg.intensity_correct = true ∧
      (epi_dc_reg t).intensity_correct = true ∧
      ∀ p ∈ drivenProducts t, ∀ tr ∈ p.transform,
        intensityCorrectOn tr = true := by
  intro t
  cases t <;> decide

/-- Witness for C2 at a concrete element of a concrete chain. -/
theorem dense_warps_intensity_corrected_witness :
    intensityCorrectOn gdc = true := by
  have h := dense_warps_intensity_corrected Target.asl
  exact h.2.2 ⟨"gdc_tis_vol1.nii.gz", [gdc], "tis_stcorr_vol1.nii.gz"⟩
    (by decide) gdc (by decide)

/-! ## C3: target selection at chain-assembly time -/

/-- C3 counterexample: the claim that besides appending the
structural-to-ASL registration (and switching the reference grid) "no
other part of the chain differs between the two targets" is false: the
ASL chain for target `'asl'` is not the structural-target chain plus the
appended registration, because the EPI warp is loaded from
target-specific files (`_init` vs `_final` warp and mask). -/
theorem target_chains_differ_beyond_append :
    asl2struct_mc_dc Target.asl ≠
      asl2struct_mc_dc Target.structural ++ [struct2asl_aslreg] := by
  decide

/-- The coarse kind of a chain element (0 motion, 1 affine registration,
2 non-linear warp), ignoring which files it was loaded from. -/
def transformKind : Transform → Nat
  | .moco _ => 0
  | .reg _ => 1
  | .nonlin _ => 2

/-- C3 amended: the target value is consumed exactly once at
chain-assembly time — for `'asl'` the structural-to-ASL registration is
appended after the EPI warp and the reference is the ASL image, for
`'structural'` it is omitted and the reference is the ASL-gridded T1
image; the two targets' chains have the same structure (same kinds of
transforms in the same order) apart from that appended registration, but
the EPI warp element itself is loaded from target-specific files
(`_init` vs `_final`). -/
theorem target_selects_chain_once :
    epi_dc Target.asl = [.nonlin (epi_dc_reg Target.asl), struct2asl_aslreg] ∧
    epi_dc Target.structural = [.nonlin (epi_dc_reg Target.structural)] ∧
    reference Target.asl = "tis_stcorr.nii.gz" ∧
    reference Target.structural = "ASL_grid_T1w_acpc_dc_restore.nii.gz" ∧
    (asl2struct_mc_dc Target.asl).map transformKind =
      (asl2struct_mc_dc Target.structural).map transformKind ++ [1] ∧
    (epi_dc_reg Target.asl).warp ≠ (epi_dc_reg Target.structural).warp := by
  decide

/-! ## Subprocess model (C4) -/

/-- Python `subprocess.CalledProcessError`, carrying the exit code. -/
inductive ToolError where
  | calledProcessError (returncode : Int)
deriving DecidableEq

/-- `subprocess.run(cmd, check=...)`: raises `CalledProcessError` iff
`check=True` was passed and the tool exited non-zero; otherwise it
returns normally whatever the exit code was. -/
def sp_run (check : Bool) (returncode : Int) : Except ToolError Unit :=
  if check = true ∧ returncode ≠ 0 then .error (.calledProcessError returncode)
  else .ok ()

/-- Run a generator's subprocess invocations in order, given the exit
code each external tool would return; stops at the first raised error. -/
def runCalls (exitOf : String → Int) : List (String × Bool) → Except ToolError Unit
  | [] => .ok ()
  | (tool, ck) :: rest => do
      let _ ← sp_run ck (exitOf tool)
      runCalls exitOf rest

/-- `generate_gdc_warp` runs `gradient_unwarp.py` once, via
`sp.run(cmd, shell=True)` — no `check=True`. -/
def generate_gdc_warp_calls : List (String × Bool) :=
  [("gradient_unwarp.py", false)]

/-- `generate_fmaps` runs `topup` once, via `sp.run(cmd, shell=True)` —
no `check=True`. -/
def generate_fmaps_calls : List (String × Bool) :=
  [("topup", false)]

/-- `generate_epidc_warp` runs `asl_reg --finalonly` once, via
`sp.run(cmd, shell=True)` — no `check=True`. -/
def generate_epidc_warp_calls : List (String × Bool) :=
  [("asl_reg --finalonly", false)]

/-- `generate_asl2struct_initial` runs `asl_reg --mainonly` once, with
`check=True`. -/
def generate_asl2struct_initial_calls : List (String × Bool) :=
  [("asl_reg --mainonly", true)]

/-- C4 counterexample: with every external tool failing (exit code 1),
the three transform generators return successfully — the gradient-warp,
field-map and EPI-warp generation steps do not raise at the point of
detection, so the pipeline proceeds as if they had succeeded. -/
theorem generation_failures_not_raised :
    runCalls (fun _ => 1) generate_gdc_warp_calls = Except.ok () ∧
    runCalls (fun _ => 1) generate_fmaps_calls = Except.ok () ∧
    runCalls (fun _ => 1) generate_epidc_warp_calls = Except.ok () := by
  exact ⟨rfl, rfl, rfl⟩

/-- C4 amended: no generation step is ever retried (each generator
invokes its tool exactly once), and the initial `asl_reg` registration
(run with `check=True`) raises at the point of detection exactly when
its tool fails; but `generate_gdc_warp`, `generate_fmaps` and
`generate_epidc_warp` pass no `check=True` and return successfully
whatever exit code their tool produced. -/
theorem generation_failure_policy :
    (∀ exitOf, runCalls exitOf generate_gdc_warp_calls = Except.ok ()) ∧
    (∀ exitOf, runCalls exitOf generate_fmaps_calls = Except.ok ()) ∧
    (∀ exitOf, runCalls exitOf generate_epidc_warp_calls = Except.ok ()) ∧
    (∀ r : Int, r ≠ 0 →
      runCalls (fun _ => r) generate_asl2struct_initial_calls =
        Except.error (.calledProcessError r)) ∧
    runCalls (fun _ => 0) generate_asl2struct_initial_calls = Except.ok () ∧
    generate_gdc_warp_calls.length = 1 ∧
    generate_fmaps_calls.length = 1 ∧
    generate_epidc_warp_calls.length = 1 ∧
    generate_asl2struct_initial_calls.length = 1 := by
  refine ⟨?_, ?_, ?_, ?_, rfl, rfl, rfl, rfl, rfl⟩
  · intro exitOf
    rfl
  · intro exitOf
    rfl
  · intro exitOf
    rfl
  · intro r hr
    simp only [runCalls, sp_run, generate_asl2struct_initial_calls, hr,
      ne_eq, not_false_eq_true, and_self, if_pos, true_and]
    rfl

/-- Witness for C4 amended at a failing exit code. -/
theorem generation_failure_policy_witness :
    runCalls (fun _ => 2) generate_asl2struct_initial_calls =
      Except.error (.calledProcessError 2) :=
  generation_failure_policy.2.2.2.1 2 (by decide)

/-! ## Existence-check caching (C6) -/

/-- A filesystem effect of the driver. -/
inductive FileAction where
  | remove (path : String)
  | write (path : String) (contents : String)
deriving DecidableEq

/-- `generate_topup_params`: deletes the parameter file if it exists,
then (re)writes the two phase-encoding lines. -/
def generate_topup_params (present : Bool) : List FileAction :=
  (if present then [.remove "topup_params.txt"] else []) ++
  [.write "topup_params.txt" "0 1 0 0.04845\n0 -1 0 0.04845"]

/-- `force_refresh = False`, hard-coded in `main`. -/
def force_refresh : Bool := false

/-- One cached computation step of `main`: the files it writes, and the
files whose joint existence is checked before running it (`none` for the
unconditional `generate_topup_params` call). -/
structure CacheStep where
  outputs : List String
  guard : Option (List String)
deriving DecidableEq

/-- `asl2struct_init.mat` for target `'asl'`, `asl2struct_final.mat`
for target `'structural'`. -/
def asl2struct_initial_name (t : Target) : String :=
  if t = .asl then "asl2struct_init.mat" else "asl2struct_final.mat"

/-- Every file-producing step of `distcorr_warps.main`, in program
order, for a given target: its outputs and its existence guard. -/
def driverSteps (t : Target) : List CacheStep :=
  (if t = .asl then
    [⟨["tis_stcorr_vol1.nii.gz"], some ["tis_stcorr_vol1.nii.gz"]⟩,
     ⟨["ASL_grid_T1w_acpc_dc_restore.nii.gz"],
       some ["ASL_grid_T1w_acpc_dc_restore.nii.gz"]⟩,
     ⟨["ASL_grid_T1w_acpc_dc_restore_brain_mask.nii.gz"],
       some ["ASL_grid_T1w_acpc_dc_restore_brain_mask.nii.gz"]⟩,
     ⟨["fullWarp_abs.nii.gz", "gdc_corr_vol1.nii.gz"],
       some ["fullWarp_abs.nii.gz"]⟩,
     ⟨["merged_sefms.nii.gz"], some ["merged_sefms.nii.gz"]⟩]
   else []) ++
  [⟨["topup_params.txt"], none⟩] ++
  (if t = .asl then
    [⟨["topup_fmap_hz.nii.gz", "corrected_sefms.nii.gz", "fmap.nii.gz",
       "fmapmag.nii.gz", "fmapmagbrain.nii.gz"],
       some ["fmap.nii.gz", "fmapmag.nii.gz", "fmapmagbrain.nii.gz"]⟩,
     ⟨["gdc_tis_vol1.nii.gz"], some ["gdc_tis_vol1.nii.gz"]⟩]
   else []) ++
  [⟨[asl2struct_initial_name t], some [asl2struct_initial_name t]⟩,
   ⟨[mask_name t], some [mask_name t]⟩] ++
  (if t = .asl then
    [⟨["gdc_tis_vol1_brain.nii.gz"], some ["gdc_tis_vol1_brain.nii.gz"]⟩,
     ⟨["wmmask.nii.gz"], some ["wmmask.nii.gz"]⟩]
   else []) ++
  [⟨[epi_dc_path t, "DistCorr/asl2struct.mat"], some [epi_dc_path t]⟩,
   ⟨["tis_distcorr.nii.gz"], some ["tis_distcorr.nii.gz"]⟩] ++
  (if t = .structural then
    [⟨["calib0_dcorr.nii.gz"], some ["calib0_dcorr.nii.gz"]⟩]
   else []) ++
  [⟨["combined_scaling_factors.nii.gz"],
     some ["combined_scaling_factors.nii.gz"]⟩] ++
  (if t = .structural then
    [⟨["mean_T1t_filt.nii.gz"], some ["mean_T1t_filt.nii.gz"]⟩]
   else []) ++
  (if t = .asl then
    [⟨["ASL/TIs/timing_img.nii.gz"], some ["ASL/TIs/timing_img.nii.gz"]⟩]
   else []) ++
  (if t = .structural then
    [⟨["T1w/ASL/timing_img.nii.gz"], some ["T1w/ASL/timing_img.nii.gz"]⟩]
   else [])

/-- Whether a step runs, given which files are present on disk:
`if (not op.exists(...) or force_refresh):` — jointly for a guard of
several files; an unguarded step always runs. -/
def stepFires (present : String → Bool) (s : CacheStep) : Bool :=
  match s.guard with
  | none => true
  | some gs => !(gs.all present) || force_refresh

/-- The files one run of `main` writes, given which files are present. -/
def driverWrites (present : String → Bool) (t : Target) : List String :=
  (driverSteps t).flatMap fun s => if stepFires present s then s.outputs else []

/-- C6 counterexample: with every output already on disk and refresh not
forced, the driver still writes the topup parameter file — and
`generate_topup_params` first deletes the existing file, so it is not
left unchanged.  Not every write is guarded by an existence check. -/
theorem unguarded_topup_params_write :
    "topup_params.txt" ∈ driverWrites (fun _ => true) Target.asl ∧
    FileAction.remove "topup_params.txt" ∈ generate_topup_params true ∧
    force_refresh = false := by
  decide

/-- Helper: a failed `List.all` yields a member on which the predicate
is false. -/
theorem all_eq_false_mem {l : List String} {f : String → Bool}
    (h : l.all f = false) : ∃ q ∈ l, f q = false := by
  induction l with
  | nil => simp at h
  | cons a l ih =>
    by_cases ha : f a = true
    · simp only [List.all_cons, ha, Bool.true_and] at h
      obtain ⟨q, hq, hfq⟩ := ih h
      exact ⟨q, List.mem_cons_of_mem _ hq, hfq⟩
    · exact ⟨a, List.mem_cons_self a l, Bool.eq_false_iff.mpr ha⟩

/-- Helper: the only unguarded step is the topup-parameters write. -/
theorem unguarded_step_is_topup_params :
    ∀ t : Target, ∀ s ∈ driverSteps t,
      s.guard = none → s.outputs = ["topup_params.txt"] := by
  intro t
  cases t <;> decide

/-- C6 amended: every file the driver writes either is the topup
parameter file (written unconditionally on every run) or belongs to a
step guarded by an existence check — the step ran only because at least
one of its checked files was missing.  In particular any file whose
step's checked outputs all exist is skipped and left unchanged. -/
theorem writes_guarded_except_topup_params :
    ∀ (t : Target) (present : String → Bool) (p : String),
      p ∈ driverWrites present t →
      p = "topup_params.txt" ∨
      ∃ s ∈ driverSteps t, p ∈ s.outputs ∧
        ∃ gs, s.guard = some gs ∧ ∃ q ∈ gs, present q = false := by
  intro t present p hp
  simp only [driverWrites, List.mem_flatMap] at hp
  obtain ⟨s, hs, hps⟩ := hp
  by_cases hf : stepFires present s = true
  · rw [if_pos hf] at hps
    match hg : s.guard with
    | none =>
      have houts := unguarded_step_is_topup_params t s hs hg
      rw [houts] at hps
      exact Or.inl (List.mem_singleton.mp hps)
    | some gs =>
      refine Or.inr ⟨s, hs, hps, gs, hg, ?_⟩
      have hfires : (!(gs.all present) || force_refresh) = true := by
        rw [stepFires, hg] at hf
        exact hf
      simp only [force_refresh, Bool.or_false, Bool.not_eq_true'] at hfires
      exact all_eq_false_mem hfires
  · rw [if_neg hf] at hps
    exact absurd hps (List.not_mem_nil p)

/-- Witness for C6 amended at a concrete write of a concrete run. -/
theorem writes_guarded_except_topup_params_witness :
    "tis_stcorr_vol1.nii.gz" = "topup_params.txt" ∨
    ∃ s ∈ driverSteps Target.asl, "tis_stcorr_vol1.nii.gz" ∈ s.outputs ∧
      ∃ gs, s.guard = some gs ∧
        ∃ q ∈ gs, (fun _ => false : String → Bool) q = false :=
  writes_guarded_except_topup_params Target.asl (fun _ => false)
    "tis_stcorr_vol1.nii.gz" (by decide)

/-! ## MT-estimation pipeline (mt_estimation_pipeline.py) -/

/-- `choices=range(0, 5 + 1)` of the `--interpolation` argument. -/
def interpolation_choices : List Int :=
  (List.range (5 + 1)).map (fun n => (n : Int))

/-- argparse rejection of a value outside `choices`. -/
inductive ArgparseError where
  | invalidChoice
deriving DecidableEq

/-- argparse coerces the supplied value with `type=int`, then rejects it
unless it belongs to `choices`. -/
def parse_interpolation (v : Int) : Except ArgparseError Int :=
  if v ∈ interpolation_choices then .ok v else .error .invalidChoice

/-- The choices list is exactly the integer interval [0, 5]. -/
theorem mem_interpolation_choices (v : Int) :
    v ∈ interpolation_choices ↔ 0 ≤ v ∧ v ≤ 5 := by
  have hlist : interpolation_choices = [0, 1, 2, 3, 4, 5] := by rfl
  rw [hlist]
  simp only [List.mem_cons, List.not_mem_nil, or_false]
  omega

/-- Modelled from the spec: `setup_mtestimation` (from
`hcpasl.MTEstimation`, whose source is not under src/) performs
per-subject setup; per the spec the driver layer "may catch and report
per-subject failures without aborting a batch", so setup returns a
per-subject result `(subject, status)` — status 1 on success — and never
raises.  The abstract `status` function supplies each subject's outcome;
the accepted interpolation order is forwarded to it unchanged. -/
def setup_mtestimation (status : String → Int) (interpolation : Int)
    (subject : String) : String × Int :=
  (subject, status subject)

/-- The observable outcome of one run of the MT-estimation driver. -/
structure MTRun where
  interpolation : Int
  printed : List (String × Int)
  successful_subs : List String
  estimate_subjects : List String
deriving DecidableEq

/-- The batch section of `mt_estimation_pipeline.main` (lines 115-143):
map setup over all subjects, print every result, append to
`successful_subs` the subjects whose result carries status 1, and run
`estimate_mt` on exactly those. -/
def mt_batch (status : String → Int) (interpolation : Int)
    (subjects : List String) : MTRun :=
  let results := subjects.map (setup_mtestimation status interpolation)
  let successful_subs :=
    results.foldl (fun acc r => if r.2 = 1 then acc ++ [r.1] else acc) []
  ⟨interpolation, results, successful_subs, successful_subs⟩

/-- `mt_estimation_pipeline.main`: parse the arguments — rejecting a bad
interpolation order before any setup or resampling happens — then run
the batch with the accepted value. -/
def mt_main (status : String → Int) (interpolation : Int)
    (subjects : List String) : Except ArgparseError MTRun := do
  let i ← parse_interpolation interpolation
  pure (mt_batch status i subjects)

/-- C5: the interpolation order is accepted iff it lies in [0, 5]; an
accepted value reaches the batch (and hence setup/resampling) unchanged,
and any other value makes `main` fail at argument parsing, before any
setup or resampling occurs. -/
theorem interpolation_order_validated :
    ∀ (v : Int) (status : String → Int) (subjects : List String),
      ((0 ≤ v ∧ v ≤ 5) →
        parse_interpolation v = Except.ok v ∧
        mt_main status v subjects = Except.ok (mt_batch status v subjects) ∧
        (mt_batch status v subjects).interpolation = v) ∧
      (¬(0 ≤ v ∧ v ≤ 5) →
        parse_interpolation v = Except.error .invalidChoice ∧
        mt_main status v subjects = Except.error .invalidChoice) := by
  intro v status subjects
  constructor
  · intro h
    have hm : v ∈ interpolation_choices := (mem_interpolation_choices v).mpr h
    refine ⟨?_, ?_, rfl⟩
    · simp [parse_interpolation, hm]
    · simp [mt_main, parse_interpolation, hm]
  · intro h
    have hm : v ∉ interpolation_choices :=
      fun hc => h ((mem_interpolation_choices v).mp hc)
    refine ⟨?_, ?_⟩
    · simp [parse_interpolation, hm]
    · simp [mt_main, parse_interpolation, hm]

/-- Witness for C5 at an accepted and at a rejected order. -/
theorem interpolation_order_validated_witness :
    parse_interpolation 3 = Except.ok 3 ∧
    parse_interpolation 7 = Except.error ArgparseError.invalidChoice :=
  ⟨((interpolation_order_validated 3 (fun _ => 1) []).1 (by decide)).1,
   ((interpolation_order_validated 7 (fun _ => 1) []).2 (by decide)).1⟩

/-- Helper: the result-collecting loop over the setup results is a
filter of the subject list on success status. -/
theorem setup_select_eq_filter (status : String → Int) (i : Int) :
    ∀ (subjects : List String) (acc : List String),
      (subjects.map (setup_mtestimation status i)).foldl
        (fun acc r => if r.2 = 1 then acc ++ [r.1] else acc) acc =
      acc ++ subjects.filter (fun s => decide (status s = 1)) := by
  intro subjects
  induction subjects with
  | nil => intro acc; simp
  | cons a l ih =>
    intro acc
    by_cases h : status a = 1 <;>
      simp [setup_mtestimation, List.filter_cons, h, ih]

/-- C7: the batch maps setup over every subject, reports (prints) one
result per subject, and hands to the estimation step exactly the
subjects whose setup result carries success status 1 — one subject's
failed setup removes only that subject, while the whole batch still runs
to completion. -/
theorem batch_reports_and_filters :
    ∀ (status : String → Int) (interpolation : Int) (subjects : List String),
      (mt_batch status interpolation subjects).printed =
        subjects.map (fun s => (s, status s)) ∧
      (mt_batch status interpolation subjects).printed.length =
        subjects.length ∧
      (mt_batch status interpolation subjects).successful_subs =
        subjects.filter (fun s => decide (status s = 1)) ∧
      (mt_batch status interpolation subjects).estimate_subjects =
        (mt_batch status interpolation subjects).successful_subs := by
  intro status interpolation subjects
  refine ⟨rfl, by simp [mt_batch], ?_, rfl⟩
  show (subjects.map (setup_mtestimation status interpolation)).foldl
      (fun acc r => if r.2 = 1 then acc ++ [r.1] else acc) [] = _
  rw [setup_select_eq_filter]
  simp

/-! ## Working-directory discipline (C8) -/

/-- An observable process-level event. -/
inductive ProcEvent where
  | chdir (dir : String)
  | run_sh (cmd : String) (cwd : String)
deriving DecidableEq

/-- Process state: current working directory plus the event trace. -/
structure ProcState where
  cwd : String
  events : List ProcEvent
deriving DecidableEq

/-- `os.getcwd()`. -/
def os_getcwd (s : ProcState) : String := s.cwd

/-- `os.chdir(d)`. -/
def os_chdir (d : String) (s : ProcState) : ProcState :=
  ⟨d, s.events ++ [.chdir d]⟩

/-- `sp.run(cmd, shell=True)`: runs in (and records) the current working
directory; does not change it. -/
def sp_run_shell (cmd : String) (s : ProcState) : ProcState :=
  ⟨s.cwd, s.events ++ [.run_sh cmd s.cwd]⟩

/-- `generate_gdc_warp` process-state effects: `pwd = os.getcwd()`,
`os.chdir(distcorr_dir)`, run `gradient_unwarp.py`, `os.chdir(pwd)`. -/
def generate_gdc_warp_st (asl_vol0 coeffs_path distcorr_dir : String)
    (s : ProcState) : ProcState :=
  let pwd := os_getcwd s
  let s1 := os_chdir distcorr_dir s
  let s2 := sp_run_shell
    ("gradient_unwarp.py " ++ asl_vol0 ++ " gdc_corr_vol1.nii.gz siemens -g "
      ++ coeffs_path) s1
  os_chdir pwd s2

/-- `generate_fmaps` process-state effects: save `pwd`, chdir to
`distcorr_dir`, run `topup`, then — after in-process image arithmetic
and brain extraction, which do not touch the working directory — chdir
back to `pwd`. -/
def generate_fmaps_st (pa_ap_sefms params config distcorr_dir : String)
    (s : ProcState) : ProcState :=
  let pwd := os_getcwd s
  let s1 := os_chdir distcorr_dir s
  let s2 := sp_run_shell
    ("topup --imain=" ++ pa_ap_sefms ++ " --datain=" ++ params ++
      " --config=" ++ config ++ " --out=topup") s1
  os_chdir pwd s2

/-- C8: both generators change into the distortion-correction directory,
invoke their external tool with that directory as the working directory,
and on normal return have restored the working directory to its value at
entry — the change is invisible to the caller afterwards. -/
theorem generators_restore_cwd :
    ∀ (a c d pa pr cfg : String) (s : ProcState),
      (generate_gdc_warp_st a c d s).cwd = s.cwd ∧
      (generate_gdc_warp_st a c d s).events = s.events ++
        [.chdir d,
         .run_sh ("gradient_unwarp.py " ++ a ++
           " gdc_corr_vol1.nii.gz siemens -g " ++ c) d,
         .chdir s.cwd] ∧
      (generate_fmaps_st pa pr cfg d s).cwd = s.cwd ∧
      (generate_fmaps_st pa pr cfg d s).events = s.events ++
        [.chdir d,
         .run_sh ("topup --imain=" ++ pa ++ " --datain=" ++ pr ++
           " --config=" ++ cfg ++ " --out=topup") d,
         .chdir s.cwd] := by
  intro a c d pa pr cfg s
  refine ⟨rfl, ?_, rfl, ?_⟩ <;>
    simp [generate_gdc_warp_st, generate_fmaps_st, os_chdir, sp_run_shell,
      os_getcwd]

/-! ## TI timing image (create_ti_image, C9) -/

/-- `np.arange(0, n)`. -/
def np_arange (n : Nat) : List Nat := List.range n

/-- `np.tile(l, reps)` for a 1-D array. -/
def np_tile (l : List Nat) (reps : Nat) : List Nat :=
  (List.range reps).flatMap (fun _ => l)

/-- `np.tile(np.arange(0, sliceband), n_slice // sliceband)`: the
within-band index of each slice (reshaped to `(1, 1, n_slice, 1)` in the
source, i.e. broadcast over x, y and t). -/
def slice_in_band (sliceband n_slice : Nat) : List Nat :=
  np_tile (np_arange sliceband) (n_slice / sliceband)

/-- The saved 4-D timing image: shape and voxel values. -/
structure TiImage where
  shape : Nat × Nat × Nat × Nat
  value : Nat → Nat → Nat → Nat → ℚ

/-- `create_ti_image`: `np.tile(x, asl_spc.size)` makes one constant
volume per entry of `tis`; stacking and `transpose(1, 2, 3, 0)` put the
timepoint axis last, so the stacked array holds `tis[t]` at every voxel
of timepoint `t`; adding `slice_in_band * slicedt` broadcasts the
per-slice offset over x, y and t. -/
def create_ti_image (size : Nat × Nat × Nat) (tis : List ℚ)
    (sliceband : Nat) (slicedt : ℚ) : TiImage :=
  ⟨(size.1, size.2.1, size.2.2, tis.length),
   fun _x _y z t =>
     tis.getD t 0 +
       (((slice_in_band sliceband size.2.2).getD z 0 : ℕ) : ℚ) * slicedt⟩

/-- Helper: one more repetition appends one more copy. -/
theorem np_tile_succ (l : List Nat) (r : Nat) :
    np_tile l (r + 1) = np_tile l r ++ l := by
  rw [np_tile, List.range_succ, List.flatMap_append, np_tile]
  simp

/-- Helper: tiling multiplies the length. -/
theorem np_tile_length (l : List Nat) (reps : Nat) :
    (np_tile l reps).length = reps * l.length := by
  induction reps with
  | zero => simp [np_tile]
  | succ r ih =>
    rw [np_tile_succ, List.length_append, ih, Nat.succ_mul]

/-- Helper: element `z` of `reps` tiled copies of `range sb` is
`z % sb`. -/
theorem np_tile_range_getD (sb : Nat) :
    ∀ (reps z : Nat), z < reps * sb →
      (np_tile (List.range sb) reps).getD z 0 = z % sb := by
  intro reps
  induction reps with
  | zero => intro z hz; omega
  | succ r ih =>
    intro z hz
    rw [np_tile_succ]
    by_cases hlt : z < r * sb
    · rw [List.getD_append _ _ _ _ (by rw [np_tile_length, List.length_range]; exact hlt)]
      exact ih z hlt
    · have hle : r * sb ≤ z := Nat.le_of_not_lt hlt
      have hz' : z - r * sb < sb := by
        rw [Nat.succ_mul] at hz
        omega
      rw [List.getD_append_right _ _ _ _
        (by rw [np_tile_length, List.length_range]; exact hle)]
      rw [np_tile_length, List.length_range]
      rw [List.getD_eq_getElem _ _ (by rw [List.length_range]; exact hz'),
        List.getElem_range]
      have h1 : z - r * sb + r * sb = z := Nat.sub_add_cancel hle
      calc z - r * sb = (z - r * sb) % sb := (Nat.mod_eq_of_lt hz').symm
        _ = (z - r * sb + r * sb) % sb := (Nat.add_mul_mod_self_right _ r sb).symm
        _ = z % sb := by rw [h1]

/-- Helper: when the band size divides the slice count, slice `z` sits at
within-band position `z % sliceband`. -/
theorem slice_in_band_getD (sliceband n_slice z : Nat)
    (hdvd : sliceband ∣ n_slice) (hz : z < n_slice) :
    (slice_in_band sliceband n_slice).getD z 0 = z % sliceband := by
  apply np_tile_range_getD
  rw [Nat.div_mul_cancel hdvd]
  exact hz

/-- C9: when the band size divides the slice count, the timing image
holds `tis[t] + (z mod sliceband) * slicedt` at every voxel of slice `z`
and timepoint `t`; the value is independent of the in-plane position,
and the image has one timepoint per entry of `tis`. -/
theorem create_ti_image_values :
    ∀ (size : Nat × Nat × Nat) (tis : List ℚ) (sliceband : Nat)
      (slicedt : ℚ) (x y z t : Nat),
      sliceband ∣ size.2.2 → z < size.2.2 → t < tis.length →
      (create_ti_image size tis sliceband slicedt).value x y z t =
        tis.getD t 0 + ((z % sliceband : ℕ) : ℚ) * slicedt ∧
      (∀ x' y', (create_ti_image size tis sliceband slicedt).value x' y' z t =
        (create_ti_image size tis sliceband slicedt).value x y z t) ∧
      (create_ti_image size tis sliceband slicedt).shape.2.2.2 = tis.length := by
  intro size tis sliceband slicedt x y z t hdvd hz ht
  refine ⟨?_, fun x' y' => rfl, rfl⟩
  simp only [create_ti_image]
  rw [slice_in_band_getD sliceband size.2.2 z hdvd hz]

/-- Witness for C9 on a 2x2x4 grid with two TIs, band size 2,
`slicedt = 59/1000`, at slice 3, timepoint 1. -/
theorem create_ti_image_values_witness :
    (create_ti_image (2, 2, 4) [17/10, 11/5] 2 (59/1000)).value 0 0 3 1 =
      List.getD [17/10, 11/5] 1 0 + ((3 % 2 : ℕ) : ℚ) * (59/1000) :=
  (create_ti_image_values (2, 2, 4) [17/10, 11/5] 2 (59/1000) 0 0 3 1
    (by decide) (by decide) (by decide)).1

/-! ## Field-map discovery (find_field_maps, C10) -/

/-- The Python exception kinds `find_field_maps` can raise. -/
inductive PyError where
  | indexError
  | valueError
  | nameError
deriving DecidableEq

/-- Lexicographic (character-wise) path-string order, as Python compares
paths. -/
def pathLe (a b : String) : Bool := decide (a.data ≤ b.data)

/-- Insertion step of Python's stable `sorted` on path strings. -/
def insertSorted (x : String) : List String → List String
  | [] => [x]
  | y :: ys => if pathLe x y then x :: y :: ys else y :: insertSorted x ys

/-- Python's `sorted` on path strings. -/
def pySorted : List String → List String
  | [] => []
  | x :: xs => insertSorted x (pySorted xs)

/-- `fm_dirs = sorted(scan_dir.glob('**/*-FieldMap_SE_EPI'))[-2:]`. -/
def last_two_fm_dirs (fm_glob : List String) : List String :=
  (pySorted fm_glob).drop ((pySorted fm_glob).length - 2)

/-- `dir / f'resources/NIFTI/files/{subject}_V1_B_PCASLhr_SpinEchoFieldMap_PA.nii.gz'`. -/
def pa_sefm_path (subject d : String) : String :=
  d ++ "/resources/NIFTI/files/" ++ subject ++
    "_V1_B_PCASLhr_SpinEchoFieldMap_PA.nii.gz"

/-- `dir / f'resources/NIFTI/files/{subject}_V1_B_PCASLhr_SpinEchoFieldMap_AP.nii.gz'`. -/
def ap_sefm_path (subject d : String) : String :=
  d ++ "/resources/NIFTI/files/" ++ subject ++
    "_V1_B_PCASLhr_SpinEchoFieldMap_AP.nii.gz"

/-- `find_field_maps`, compiled case by case from the Python control
flow, with `present` modelling `Path.exists`:
with no field-map directory, `fm_dirs[0]` raises IndexError;
with one directory `d0`, if its PA file exists the two-name unpacking
`pa_dir, ap_dir = fm_dirs` raises ValueError, otherwise evaluating
`fm_dirs[1]` raises IndexError;
with two directories the PA-file checks pick the PA/AP orientation, and
when neither directory holds the PA file no branch assigns `pa_dir`, so
building `pa_sefm` raises NameError (unbound local). -/
def find_field_maps (subject : String) (fm_glob : List String)
    (present : String → Bool) : Except PyError (String × String) :=
  match last_two_fm_dirs fm_glob with
  | [] => .error .indexError
  | [d0] =>
      if present (pa_sefm_path subject d0) then .error .valueError
      else .error .indexError
  | [d0, d1] =>
      if present (pa_sefm_path subject d0) then
        .ok (pa_sefm_path subject d0, ap_sefm_path subject d1)
      else if present (pa_sefm_path subject d1) then
        .ok (pa_sefm_path subject d1, ap_sefm_path subject d0)
      else .error .nameError
  | d0 :: d1 :: _ :: _ =>
      if present (pa_sefm_path subject d0) then .error .valueError
      else if present (pa_sefm_path subject d1) then .error .valueError
      else .error .nameError

/-- Helper: inserting preserves length plus one. -/
theorem insertSorted_length (x : String) (l : List String) :
    (insertSorted x l).length = l.length + 1 := by
  induction l with
  | nil => rfl
  | cons y ys ih =>
    rw [insertSorted]
    by_cases h : pathLe x y <;> simp [h, ih]

/-- Helper: sorting preserves length. -/
theorem pySorted_length (l : List String) :
    (pySorted l).length = l.length := by
  induction l with
  | nil => rfl
  | cons x xs ih => rw [pySorted, insertSorted_length, ih, List.length_cons]

/-- Helper: the `[-2:]` slice has length `min 2 (length)`. -/
theorem last_two_fm_dirs_length (g : List String) :
    (last_two_fm_dirs g).length = min 2 g.length := by
  rw [last_two_fm_dirs, List.length_drop, pySorted_length]
  omega

/-- C10: `find_field_maps` only ever returns a pair of paths drawn from
the last two field-map directories in sorted order (either orientation);
if neither of those two directories holds the expected PA spin-echo
field-map file it raises rather than returning a fallback; and with
fewer than two field-map directories it raises rather than returning. -/
theorem find_field_maps_contract :
    ∀ (subject : String) (fm_glob : List String) (present : String → Bool),
      (∀ pa ap,
        find_field_maps subject fm_glob present = Except.ok (pa, ap) →
        ∃ d0 d1, last_two_fm_dirs fm_glob = [d0, d1] ∧
          ((pa = pa_sefm_path subject d0 ∧ ap = ap_sefm_path subject d1) ∨
           (pa = pa_sefm_path subject d1 ∧ ap = ap_sefm_path subject d0))) ∧
      ((∀ d ∈ last_two_fm_dirs fm_glob,
          present (pa_sefm_path subject d) = false) →
        ∃ e, find_field_maps subject fm_glob present = Except.error e) ∧
      (fm_glob.length < 2 →
        ∃ e, find_field_maps subject fm_glob present = Except.error e) := by
  intro subject fm_glob present
  refine ⟨?_, ?_, ?_⟩
  · intro pa ap hok
    unfold find_field_maps at hok
    rcases hL : last_two_fm_dirs fm_glob with _ | ⟨d0, _ | ⟨d1, _ | ⟨d2, rest⟩⟩⟩ <;>
      rw [hL] at hok <;> dsimp only at hok
    · simp at hok
    · split at hok <;> simp at hok
    · refine ⟨d0, d1, rfl, ?_⟩
      split at hok
      · simp only [Except.ok.injEq, Prod.mk.injEq] at hok
        exact Or.inl ⟨hok.1.symm, hok.2.symm⟩
      · split at hok
        · simp only [Except.ok.injEq, Prod.mk.injEq] at hok
          exact Or.inr ⟨hok.1.symm, hok.2.symm⟩
        · simp at hok
    · split at hok
      · simp at hok
      · split at hok <;> simp at hok
  · intro hall
    unfold find_field_maps
    rcases hL : last_two_fm_dirs fm_glob with _ | ⟨d0, _ | ⟨d1, _ | ⟨d2, rest⟩⟩⟩ <;>
      rw [hL] at hall <;> dsimp only
    · exact ⟨.indexError, rfl⟩
    · have h0 := hall d0 (by simp)
      exact ⟨.indexError, by simp [h0]⟩
    · have h0 := hall d0 (by simp)
      have h1 := hall d1 (by simp)
      exact ⟨.nameError, by simp [h0, h1]⟩
    · have h0 := hall d0 (by simp)
      have h1 := hall d1 (by simp)
      exact ⟨.nameError, by simp [h0, h1]⟩
  · intro hlen
    have h2 : (last_two_fm_dirs fm_glob).length < 2 := by
      rw [last_two_fm_dirs_length]
      omega
    unfold find_field_maps
    rcases hL : last_two_fm_dirs fm_glob with _ | ⟨d0, _ | ⟨d1, rest⟩⟩ <;>
      (try dsimp only)
    · exact ⟨.indexError, rfl⟩
    · by_cases hp : present (pa_sefm_path subject d0) = true
      · exact ⟨.valueError, by simp [hp]⟩
      · exact ⟨.indexError, by simp [hp]⟩
    · rw [hL] at h2
      simp only [List.length_cons] at h2
      omega

/-- Witness for C10: a successful lookup on two directories with the PA
file present, and the failure with no field-map directory at all. -/
theorem find_field_maps_contract_witness :
    (∃ d0 d1, last_two_fm_dirs ["dirA", "dirB"] = [d0, d1] ∧
      ((pa_sefm_path "HCA001" "dirA" = pa_sefm_path "HCA001" d0 ∧
        ap_sefm_path "HCA001" "dirB" = ap_sefm_path "HCA001" d1) ∨
       (pa_sefm_path "HCA001" "dirA" = pa_sefm_path "HCA001" d1 ∧
        ap_sefm_path "HCA001" "dirB" = ap_sefm_path "HCA001" d0))) ∧
    (∃ e, find_field_maps "HCA001" [] (fun _ => false) = Except.error e) :=
  ⟨(find_field_maps_contract "HCA001" ["dirA", "dirB"] (fun _ => true)).1
      (pa_sefm_path "HCA001" "dirA") (ap_sefm_path "HCA001" "dirB") (by rfl),
   (find_field_maps_contract "HCA001" [] (fun _ => false)).2.2 (by decide)⟩
